import Mathlib

/-!
Shallow embedding of the go-logrun package: a runner that logs and executes
commands either locally or over ssh, with derived filesystem operations.

Modelling conventions:
  - Exit codes are Int (Go int).
  - A Go error value is Option String: none is a nil error, some e is a
    non-nil error whose Error() text is e.
  - The external go-run execution primitive (run.Runner) is abstracted as a
    structure of pure functions returning an ExecResult quadruple; the
    constructors run.NewRemote and run.NewLocal are abstracted as function
    parameters.
  - Side effects (invocations of the logging callback and of the execution
    primitive) are made explicit as an Event trace returned next to each
    method result.
  - A Go panic (index out of range) is modelled as the none case of an
    Option-valued result.
-/

/-- Exit code: no unrecovered error occurred (iota value 0). -/
def ExitOK : Int := 0

/-- Exit code: internal error (iota value 1). -/
def ExitErrorInternal : Int := 1

/-- Exit code: command-line usage error (iota value 2). -/
def ExitErrorUsage : Int := 2

/-- Exit code: user error (iota value 3). -/
def ExitErrorUser : Int := 3

/-- Exit code: I/O error (iota value 4). -/
def ExitErrorIO : Int := 4

/-- Exit code: permission error (iota value 5). -/
def ExitErrorPerm : Int := 5

/-- Exit code: something was invalid (iota value 6). -/
def ExitErrorInvalid : Int := 6

/-- Exit code: something already exists (iota value 7). -/
def ExitErrorExists : Int := 7

/-- Exit code: something cannot be found (iota value 8). -/
def ExitErrorNotFound : Int := 8

/-- Exit code: untrapped or invalid signal (iota value 9). -/
def ExitErrorSignal : Int := 9

/-- Exit code: run-time error catchall (iota value 10). -/
def ExitErrorRuntime : Int := 10

/-- ExitErrorExecute is returned when the Run() or Shell() methods has an
issue with executing the command; it is not the non-zero return code of the
command itself. -/
def ExitErrorExecute : Int := ExitErrorInternal

/-- Result of the external execution primitive: captured stdout, captured
stderr, exit code, and the Go error slot. -/
structure ExecResult where
  stdout : String
  stderr : String
  code : Int
  err : Option String
deriving Repr, DecidableEq

namespace run

/-- The external go-run execution primitive interface (run.Runner). -/
structure Runner where
  run : String → List String → ExecResult
  shell : String → ExecResult
  formatRun : String → List String → String
  formatShell : String → String

/-- Credentials of the external go-run package. -/
structure Credentials where
  Hostname : String
  Port : Int
  Username : String
  Password : String
  PrivateKeyFilename : String
deriving Repr, DecidableEq

/-- The fields of the external run.RemoteConfig that NewRemoteLogRun fills
in (streams are abstract handles, none modelling a nil Go interface). -/
structure RemoteConfig where
  ShellExecutable : String
  Stdin : Option Nat
  Stdout : Option Nat
  Stderr : Option Nat
  Credentials : Credentials
deriving Repr, DecidableEq

/-- The fields of the external run.LocalConfig that NewLocalLogRun fills
in. -/
structure LocalConfig where
  ShellExecutable : String
  Env : List String
  Dir : String
  Stdin : Option Nat
  Stdout : Option Nat
  Stderr : Option Nat
deriving Repr, DecidableEq

end run

/-- Observable effects of a LogRun method call: an invocation of the logging
callback with a message, or an invocation of the execution primitive. -/
inductive Event where
  | log (msg : String)
  | primRun (cmd : String) (args : List String)
  | primShell (cmd : String)
deriving Repr, DecidableEq

/-- The type of the logging callback (its own behaviour is external; the
trace records that it was invoked). -/
def LogFunc : Type := String → List String

/-- DiscardLogFunc is used to disable logging. It is the default logging
function. -/
def DiscardLogFunc : LogFunc := fun _ => []

/-- DefaultLogFunc is the function called when not specified in the
LocalConfig or RemoteConfig objects. -/
def DefaultLogFunc : LogFunc := DiscardLogFunc

/-- LogRun encapsulates a logger used to log and run either a local or
remote command. -/
structure LogRun where
  Runner : run.Runner
  logFunc : LogFunc
  Dryrun : Bool

/-- The messages passed to the logging callback, in order, within a trace. -/
def loggedMsgs (tr : List Event) : List String :=
  tr.filterMap fun e =>
    match e with
    | Event.log m => some m
    | _ => none

/-- The execution-primitive invocations, in order, within a trace. -/
def primEvents (tr : List Event) : List Event :=
  tr.filter fun e =>
    match e with
    | Event.log _ => false
    | _ => true

/-- Private method run: delegates to the primitive Run; a non-nil error is
collapsed into empty stdout, the error text as stderr, and
ExitErrorExecute. -/
def LogRun.run (r : LogRun) (cmd : String) (args : List String) :
    (String × String × Int) × List Event :=
  let res := r.Runner.run cmd args
  (match res.err with
   | some e => ("", e, ExitErrorExecute)
   | none => (res.stdout, res.stderr, res.code),
   [Event.primRun cmd args])

/-- Private method shell: delegates to the primitive Shell; a non-nil error
is collapsed into empty stdout, the error text as stderr, and
ExitErrorExecute. -/
def LogRun.shell (r : LogRun) (cmd : String) :
    (String × String × Int) × List Event :=
  let res := r.Runner.shell cmd
  (match res.err with
   | some e => ("", e, ExitErrorExecute)
   | none => (res.stdout, res.stderr, res.code),
   [Event.primShell cmd])

/-- Run first logs the command and then runs the command. Only logging is
performed if Dryrun is true. -/
def LogRun.Run (r : LogRun) (cmd : String) (args : List String) :
    (String × String × Int) × List Event :=
  let msg := r.Runner.formatRun cmd args
  if r.Dryrun then (("", "", ExitOK), [Event.log msg])
  else
    let res := r.run cmd args
    (res.1, Event.log msg :: res.2)

/-- FormatRun returns a string representation of the command that would be
executed using Run(). -/
def LogRun.FormatRun (r : LogRun) (cmd : String) (args : List String) : String :=
  r.Runner.formatRun cmd args

/-- Shell first logs the command and then runs the command in a shell. Only
logging is performed if Dryrun is true. -/
def LogRun.Shell (r : LogRun) (cmd : String) :
    (String × String × Int) × List Event :=
  let msg := r.Runner.formatShell cmd
  if r.Dryrun then (("", "", ExitOK), [Event.log msg])
  else
    let res := r.shell cmd
    (res.1, Event.log msg :: res.2)

/-- FormatShell returns a string representation of the command that would be
executed using Shell(). -/
def LogRun.FormatShell (r : LogRun) (cmd : String) : String :=
  r.Runner.formatShell cmd

/-- Splitting a character list at every occurrence of a separator character;
the resulting list always has one more element than there are separators. -/
def splitOnChar (sep : Char) : List Char → List (List Char)
  | [] => [[]]
  | c :: rest =>
    if c = sep then [] :: splitOnChar sep rest
    else
      match splitOnChar sep rest with
      | [] => [[c]]
      | h :: t => (c :: h) :: t

/-- Model of Go strings.Split for a single-character separator (the source
only ever splits on a colon or a newline). -/
def goSplit (s : String) (sep : Char) : List String :=
  (splitOnChar sep s.toList).map String.mk

/-- Whether pat occurs as a contiguous sublist of cs. -/
def containsSubAux (pat : List Char) : List Char → Bool
  | [] => pat.isPrefixOf []
  | c :: rest => pat.isPrefixOf (c :: rest) || containsSubAux pat rest

/-- Model of Go strings.Contains: substr occurs as a substring of s. -/
def goContains (s substr : String) : Bool :=
  containsSubAux substr.toList s.toList

/-- ASCII white space as recognised by Go unicode.IsSpace. -/
def goIsSpace (c : Char) : Bool :=
  c = ' ' || c = '\t' || c = '\n' || c = '\x0b' || c = '\x0c' || c = '\r'

/-- Dropping leading white space from a character list. -/
def trimLeftChars : List Char → List Char
  | [] => []
  | c :: rest => if goIsSpace c then trimLeftChars rest else c :: rest

/-- Model of Go strings.TrimSpace: white space removed from both ends. -/
def goTrimSpace (s : String) : String :=
  String.mk ((trimLeftChars (trimLeftChars s.toList).reverse).reverse)

/-- FileExistsCmd is the external command used to determine if a file
exists or not. -/
def FileExistsCmd : String := "/usr/bin/stat"

/-- FileExistsCmdOptions are the command-line options added to
FileExistsCmd. -/
def FileExistsCmdOptions : List String := ["--dereference", "--format", "%n:%F"]

/-- DirExistsCmd is the external command used to determine if a directory
exists or not. -/
def DirExistsCmd : String := "/usr/bin/stat"

/-- DirExistsCmdOptions are the command-line options added to
DirExistsCmd. -/
def DirExistsCmdOptions : List String := ["--dereference", "--format", "%n:%F"]

/-- GlobCmd is the external command used to return a list of paths that
match a shell glob pattern. -/
def GlobCmd : String := "/bin/ls"

/-- GlobCmdOptions are the command-line options added to GlobCmd. -/
def GlobCmdOptions : List String := ["-1", "--directory"]

/-- RsyncCmd is the external command used to copy a directory or file to or
from a local or remote destination. -/
def RsyncCmd : String := "/usr/bin/rsync"

/-- RsyncCmdOptions are the command-line options added to RsyncCmd. -/
def RsyncCmdOptions : List String :=
  ["--rsh",
   "ssh -q -o StrictHostKeyChecking=no -o UserKnownHostsFile=/dev/null -o GlobalKnownHostsFile=/dev/null",
   "--recursive",
   "--links",
   "--times"]

/-- How FileExists turns the stdout, stderr and exit code of the status
command into its return value. The none result models the Go panic (index
out of range) raised when the split of stdout on colons has no second
element. -/
def fileExistsResult (filename : String) (outv : String × String × Int) :
    Option (Bool × Option String) :=
  let stdout := outv.1
  let stderr := outv.2.1
  let code := outv.2.2
  if code ≠ 0 then
    if goContains stderr "No such file or directory" then some (false, none)
    else some (false, some ("could not access " ++ filename ++ ": " ++ stdout))
  else
    match (goSplit stdout ':')[1]? with
    | none => none
    | some fld =>
      let fileType := goTrimSpace fld
      if fileType ≠ "regular file" ∧ fileType ≠ "regular empty file" then
        some (false, some (filename ++ " is not a regular file"))
      else some (true, none)

/-- FileExists returns true if filename exists and is a regular file. -/
def LogRun.FileExists (r : LogRun) (filename : String) :
    Option (Bool × Option String) × List Event :=
  let cmdArgs := FileExistsCmdOptions ++ [filename]
  let msg := r.Runner.formatRun FileExistsCmd cmdArgs
  if r.Dryrun then (some (true, none), [Event.log msg])
  else
    let res := r.run FileExistsCmd cmdArgs
    (fileExistsResult filename res.1, Event.log msg :: res.2)

/-- How DirExists turns the stdout, stderr and exit code of the status
command into its return value. The none result models the Go panic (index
out of range) raised when the split of stdout on colons has no second
element. -/
def dirExistsResult (dirname : String) (outv : String × String × Int) :
    Option (Bool × Option String) :=
  let stdout := outv.1
  let stderr := outv.2.1
  let code := outv.2.2
  if code ≠ 0 then
    if goContains stderr "No such file or directory" then some (false, none)
    else some (false, some ("could not access " ++ dirname ++ ": " ++ stdout))
  else
    match (goSplit stdout ':')[1]? with
    | none => none
    | some fld =>
      if goTrimSpace fld ≠ "directory" then
        some (false, some (dirname ++ " is not a directory"))
      else some (true, none)

/-- DirExists returns true if dirname exists and is a directory. -/
def LogRun.DirExists (r : LogRun) (dirname : String) :
    Option (Bool × Option String) × List Event :=
  let cmdArgs := DirExistsCmdOptions ++ [dirname]
  let msg := r.Runner.formatRun DirExistsCmd cmdArgs
  if r.Dryrun then (some (true, none), [Event.log msg])
  else
    let res := r.run DirExistsCmd cmdArgs
    (dirExistsResult dirname res.1, Event.log msg :: res.2)

/-- The shell command line built and executed by Glob for a pattern. -/
def globCmdline (pattern : String) : String :=
  String.intercalate " " ([GlobCmd] ++ GlobCmdOptions ++ [pattern])

/-- How Glob turns the stdout, stderr and exit code of the listing command
into its return value: on failure an empty list and an error wrapping
stderr, on success the trimmed non-empty lines of stdout in order. -/
def globResult (pattern : String) (outv : String × String × Int) :
    List String × Option String :=
  let stdout := outv.1
  let stderr := outv.2.1
  let code := outv.2.2
  if code ≠ 0 then
    ([], some ("glob " ++ "\x27" ++ pattern ++ "\x27" ++ " failed: " ++ stderr))
  else
    (((goSplit stdout '\n').map goTrimSpace).filter fun line => line ≠ "", none)

/-- Glob returns a list of files matching a shell glob pattern. It does not
consult the Dryrun flag. -/
def LogRun.Glob (r : LogRun) (pattern : String) :
    (List String × Option String) × List Event :=
  let cmd := globCmdline pattern
  let msg := r.Runner.formatShell cmd
  let res := r.shell cmd
  (globResult pattern res.1, Event.log msg :: res.2)

/-- How Rsync turns the result of Run into its return value: an error
wrapping stderr exactly when the exit code is non-zero. -/
def rsyncResult (outv : String × String × Int) : Option String :=
  if outv.2.2 ≠ 0 then some ("rsync command failed: " ++ outv.2.1) else none

/-- Rsync copies files/directories to or from local and remote locations
using the rsync command, via the Run method. -/
def LogRun.Rsync (r : LogRun) (src : String) (dest : String) :
    Option String × List Event :=
  let cmdArgs := RsyncCmdOptions ++ [src, dest]
  let res := r.Run RsyncCmd cmdArgs
  (rsyncResult res.1, res.2)

/-- Credentials contains needed credentials to SSH to a host. -/
structure Credentials where
  Hostname : String
  Port : Int
  Username : String
  Password : String
  PrivateKeyFilename : String
deriving Repr, DecidableEq

/-- RemoteConfig is used to set options in the NewRemoteLogRun
constructor (streams are abstract handles; a none LogFunc models a nil Go
function value). -/
structure RemoteConfig where
  LogFunc : Option LogFunc
  ShellExecutable : String
  Env : List String
  Dir : String
  Stdin : Option Nat
  Stdout : Option Nat
  Stderr : Option Nat
  Credentials : Credentials
  Dryrun : Bool

/-- LocalConfig is used to set options in the NewLocalLogRun
constructor. -/
structure LocalConfig where
  LogFunc : Option LogFunc
  ShellExecutable : String
  Env : List String
  Dir : String
  Stdin : Option Nat
  Stdout : Option Nat
  Stderr : Option Nat
  Dryrun : Bool

/-- The run.RemoteConfig value that NewRemoteLogRun passes to the external
run.NewRemote constructor: only the shell path, the three streams and the
credentials are forwarded. -/
def remoteRunConfig (config : RemoteConfig) : run.RemoteConfig :=
  { ShellExecutable := config.ShellExecutable
    Stdin := config.Stdin
    Stdout := config.Stdout
    Stderr := config.Stderr
    Credentials :=
      { Hostname := config.Credentials.Hostname
        Port := config.Credentials.Port
        Username := config.Credentials.Username
        Password := config.Credentials.Password
        PrivateKeyFilename := config.Credentials.PrivateKeyFilename } }

/-- NewRemoteLogRun is the constructor for a LogRun used to log and run a
remote command. The external run.NewRemote constructor is a parameter; its
Go return pair (runner, error) is modelled as Except. The Go return pair of
NewRemoteLogRun itself is modelled as an Option LogRun and an Option error
text. -/
def NewRemoteLogRun (newRemote : run.RemoteConfig → Except String run.Runner)
    (config : RemoteConfig) : Option LogRun × Option String :=
  match newRemote (remoteRunConfig config) with
  | Except.error e => (none, some e)
  | Except.ok remote =>
    (some
      { Runner := remote
        logFunc :=
          match config.LogFunc with
          | none => DefaultLogFunc
          | some f => f
        Dryrun := config.Dryrun }, none)

/-- The run.LocalConfig value that NewLocalLogRun passes to the external
run.NewLocal constructor. -/
def localRunConfig (config : LocalConfig) : run.LocalConfig :=
  { ShellExecutable := config.ShellExecutable
    Env := config.Env
    Dir := config.Dir
    Stdin := config.Stdin
    Stdout := config.Stdout
    Stderr := config.Stderr }

/-- NewLocalLogRun is the constructor for a LogRun used to log and run a
local command. The external run.NewLocal constructor (which cannot fail) is
a parameter. NewLocalLogRun itself is total: it has no error path. -/
def NewLocalLogRun (newLocal : run.LocalConfig → run.Runner)
    (config : LocalConfig) : LogRun :=
  { Runner := newLocal (localRunConfig config)
    logFunc :=
      match config.LogFunc with
      | none => DefaultLogFunc
      | some f => f
    Dryrun := config.Dryrun }

/-! Concrete execution primitives used by the witness theorems. -/

/-- A primitive whose commands succeed with captured output. -/
def okRunner : run.Runner :=
  { run := fun _ _ => { stdout := "hi\n", stderr := "", code := 0, err := none }
    shell := fun _ => { stdout := "hi\n", stderr := "", code := 0, err := none }
    formatRun := fun cmd args => String.intercalate " " (cmd :: args)
    formatShell := fun cmd => "/bin/sh -c " ++ cmd }

/-- A LogRun over okRunner with dry-run enabled. -/
def dryLogRun : LogRun :=
  { Runner := okRunner, logFunc := DefaultLogFunc, Dryrun := true }

/-- A LogRun over okRunner with dry-run disabled. -/
def okLogRun : LogRun :=
  { Runner := okRunner, logFunc := DefaultLogFunc, Dryrun := false }

/-- A primitive that fails to execute anything: a nil result with a non-nil
Go error. -/
def failRunner : run.Runner :=
  { run := fun _ _ =>
      { stdout := "", stderr := "", code := 0
        err := some "fork/exec /bin/xyzzy: no such file or directory" }
    shell := fun _ =>
      { stdout := "", stderr := "", code := 0
        err := some "fork/exec /bin/xyzzy: no such file or directory" }
    formatRun := fun cmd args => String.intercalate " " (cmd :: args)
    formatShell := fun cmd => cmd }

/-- A LogRun over failRunner with dry-run disabled. -/
def failLogRun : LogRun :=
  { Runner := failRunner, logFunc := DefaultLogFunc, Dryrun := false }

/-- Claim C1: for every runner with dry-run enabled, Run and Shell return
empty stdout, empty stderr and the ExitOK exit code, the execution
primitive is not invoked, and the logging callback is invoked exactly once
with the formatted command string. -/
theorem dryrun_run_shell_ok (r : LogRun) (cmd cmdline : String)
    (args : List String) (h : r.Dryrun = true) :
    r.Run cmd args = (("", "", ExitOK), [Event.log (r.FormatRun cmd args)]) ∧
    r.Shell cmdline = (("", "", ExitOK), [Event.log (r.FormatShell cmdline)]) := by
  constructor <;>
    simp [LogRun.Run, LogRun.Shell, LogRun.FormatRun, LogRun.FormatShell, h]

/-- Witness for claim C1 at a concrete dry-run runner and command. -/
theorem dryrun_run_shell_ok_witness :
    dryLogRun.Dryrun = true ∧
    dryLogRun.Run "/bin/true" [] =
      (("", "", ExitOK), [Event.log (dryLogRun.FormatRun "/bin/true" [])]) ∧
    dryLogRun.Shell "pwd" =
      (("", "", ExitOK), [Event.log (dryLogRun.FormatShell "pwd")]) :=
  ⟨rfl, dryrun_run_shell_ok dryLogRun "/bin/true" "pwd" [] rfl⟩

/-- Claim C2: when the execution primitive returns a non-nil error, Run and
Shell return empty stdout, the error text as stderr, and ExitErrorExecute;
when it returns a nil error its stdout, stderr, and exit code pass through
unchanged. -/
theorem exec_error_sentinel (r : LogRun) (cmd cmdline out errS msg : String)
    (args : List String) (code : Int) (hd : r.Dryrun = false) :
    (r.Runner.run cmd args = ⟨out, errS, code, some msg⟩ →
      (r.Run cmd args).1 = ("", msg, ExitErrorExecute)) ∧
    (r.Runner.run cmd args = ⟨out, errS, code, none⟩ →
      (r.Run cmd args).1 = (out, errS, code)) ∧
    (r.Runner.shell cmdline = ⟨out, errS, code, some msg⟩ →
      (r.Shell cmdline).1 = ("", msg, ExitErrorExecute)) ∧
    (r.Runner.shell cmdline = ⟨out, errS, code, none⟩ →
      (r.Shell cmdline).1 = (out, errS, code)) := by
  refine ⟨fun h => ?_, fun h => ?_, fun h => ?_, fun h => ?_⟩ <;>
    simp [LogRun.Run, LogRun.Shell, LogRun.run, LogRun.shell, hd, h]

/-- Witness for claim C2: a primitive error surfaces as the sentinel exit
code, and a successful result passes through. -/
theorem exec_error_sentinel_witness :
    failLogRun.Dryrun = false ∧
    (failLogRun.Run "/bin/xyzzy" []).1 =
      ("", "fork/exec /bin/xyzzy: no such file or directory", ExitErrorExecute) ∧
    (okLogRun.Run "/bin/echo" ["hi"]).1 = ("hi\n", "", 0) :=
  ⟨rfl,
   (exec_error_sentinel failLogRun "/bin/xyzzy" "x" "" ""
      "fork/exec /bin/xyzzy: no such file or directory" [] 0 rfl).1 rfl,
   (exec_error_sentinel okLogRun "/bin/echo" "x" "hi\n" "" "unused" ["hi"] 0
      rfl).2.1 rfl⟩

/-- Claim C6: the string passed to the logging callback by Run equals
FormatRun on the same inputs (and likewise for Shell and FormatShell), and
repeated calls of the formatters with identical inputs and unchanged
configuration yield identical output. -/
theorem format_log_consistency (r : LogRun) (cmd cmdline : String)
    (args : List String) :
    loggedMsgs (r.Run cmd args).2 = [r.FormatRun cmd args] ∧
    loggedMsgs (r.Shell cmdline).2 = [r.FormatShell cmdline] ∧
    r.FormatRun cmd args = r.FormatRun cmd args ∧
    r.FormatShell cmdline = r.FormatShell cmdline := by
  refine ⟨?_, ?_, rfl, rfl⟩ <;>
    cases h : r.Dryrun <;>
      simp [LogRun.Run, LogRun.Shell, LogRun.run, LogRun.shell, LogRun.FormatRun,
        LogRun.FormatShell, loggedMsgs, h]

/-- Claim C10: ExitOK is 0 and the execution-failure sentinel
ExitErrorExecute coincides with ExitErrorInternal, both being 1, the same
value as an ordinary exit status of 1 from a target program. -/
theorem exit_code_values :
    ExitOK = 0 ∧ ExitErrorExecute = ExitErrorInternal ∧ ExitErrorInternal = 1 :=
  ⟨rfl, rfl, rfl⟩

/-- A primitive whose shell returns a listing with blank and padded lines. -/
def globRunner : run.Runner :=
  { run := fun _ _ => { stdout := "", stderr := "", code := 0, err := none }
    shell := fun _ =>
      { stdout := "/bin/true\n /etc/passwd \n\n", stderr := "", code := 0
        err := none }
    formatRun := fun cmd args => String.intercalate " " (cmd :: args)
    formatShell := fun cmd => cmd }

/-- A LogRun over globRunner with dry-run enabled, to show Glob still
executes. -/
def globLogRun : LogRun :=
  { Runner := globRunner, logFunc := DefaultLogFunc, Dryrun := true }

/-- Claim C4: Glob executes the listing command through the shell regardless
of the dry-run flag; a non-zero exit yields an empty list and an error
wrapping stderr, a zero exit yields the whitespace-trimmed non-empty lines
of stdout in order with a nil error. -/
theorem glob_ignores_dryrun (r : LogRun) (pattern out errS : String)
    (code : Int) :
    (r.Glob pattern).2 =
      [Event.log (r.FormatShell (globCmdline pattern)),
       Event.primShell (globCmdline pattern)] ∧
    ((r.shell (globCmdline pattern)).1 = (out, errS, code) →
      ((code ≠ 0 → (r.Glob pattern).1 =
          ([], some ("glob " ++ "\x27" ++ pattern ++ "\x27" ++ " failed: " ++ errS))) ∧
       (code = 0 → (r.Glob pattern).1 =
          (((goSplit out '\n').map goTrimSpace).filter (fun line => line ≠ ""),
           none)))) := by
  refine ⟨rfl, fun h => ⟨fun hc => ?_, fun hc => ?_⟩⟩ <;>
    simp [LogRun.Glob, globResult, h, hc]

/-- Witness for claim C4: a concrete Glob call under dry-run still invokes
the primitive and parses its output. -/
theorem glob_ignores_dryrun_witness :
    globLogRun.Dryrun = true ∧
    globLogRun.Glob "/bin/true*" =
      ((["/bin/true", "/etc/passwd"], none),
       [Event.log (globLogRun.FormatShell (globCmdline "/bin/true*")),
        Event.primShell (globCmdline "/bin/true*")]) := by
  have h := glob_ignores_dryrun globLogRun "/bin/true*"
    "/bin/true\n /etc/passwd \n\n" "" 0
  have h1 : (globLogRun.Glob "/bin/true*").1 = (["/bin/true", "/etc/passwd"], none) := by
    rw [(h.2 rfl).2 rfl]; decide
  exact ⟨rfl, Prod.ext h1 h.1⟩

/-- Claim C5: Rsync delegates to Run, so under dry-run it returns a nil
error without invoking the primitive; otherwise its error is non-nil and
wraps stderr exactly when the exit code of the underlying Run is
non-zero. -/
theorem rsync_delegates_to_run (r : LogRun) (src dest : String) :
    (r.Dryrun = true →
      r.Rsync src dest =
        (none, [Event.log (r.FormatRun RsyncCmd (RsyncCmdOptions ++ [src, dest]))])) ∧
    (r.Rsync src dest).2 = (r.Run RsyncCmd (RsyncCmdOptions ++ [src, dest])).2 ∧
    (∀ out errS code,
      (r.Run RsyncCmd (RsyncCmdOptions ++ [src, dest])).1 = (out, errS, code) →
      ((code ≠ 0 →
          (r.Rsync src dest).1 = some ("rsync command failed: " ++ errS)) ∧
       (code = 0 → (r.Rsync src dest).1 = none))) := by
  refine ⟨fun h => ?_, rfl, fun out errS code h => ⟨fun hc => ?_, fun hc => ?_⟩⟩
  · simp [LogRun.Rsync, rsyncResult, LogRun.Run, LogRun.FormatRun, h, ExitOK]
  · simp [LogRun.Rsync, rsyncResult, h, hc]
  · simp [LogRun.Rsync, rsyncResult, h, hc]

/-- Witness for claim C5: under dry-run a concrete Rsync returns a nil
error having only logged the command. -/
theorem rsync_delegates_to_run_witness :
    dryLogRun.Dryrun = true ∧
    dryLogRun.Rsync "/srcdir" "/destdir" =
      (none,
       [Event.log (dryLogRun.FormatRun RsyncCmd
          (RsyncCmdOptions ++ ["/srcdir", "/destdir"]))]) :=
  ⟨rfl, (rsync_delegates_to_run dryLogRun "/srcdir" "/destdir").1 rfl⟩

/-- A primitive whose status command reports a regular file. -/
def statRunner : run.Runner :=
  { run := fun _ _ =>
      { stdout := "/bin/bash:regular file", stderr := "", code := 0, err := none }
    shell := fun _ => { stdout := "", stderr := "", code := 0, err := none }
    formatRun := fun cmd args => String.intercalate " " (cmd :: args)
    formatShell := fun cmd => cmd }

/-- A LogRun over statRunner with dry-run disabled. -/
def statLogRun : LogRun :=
  { Runner := statRunner, logFunc := DefaultLogFunc, Dryrun := false }

/-- Claim C3: FileExists and DirExists log the formatted status command
even under dry-run; under dry-run they return true without running; a
non-zero exit with a no-such-file stderr gives a negative non-error result,
any other non-zero exit gives an error wrapping stdout; on a zero exit the
second colon-separated field decides: an unexpected type string gives an
error, an accepted one gives true. -/
theorem file_dir_exists_behaviour (r : LogRun) (path out errS : String)
    (code : Int) :
    (loggedMsgs (r.FileExists path).2 =
        [r.FormatRun FileExistsCmd (FileExistsCmdOptions ++ [path])] ∧
     loggedMsgs (r.DirExists path).2 =
        [r.FormatRun DirExistsCmd (DirExistsCmdOptions ++ [path])]) ∧
    (r.Dryrun = true →
      (r.FileExists path).1 = some (true, none) ∧
      (r.DirExists path).1 = some (true, none) ∧
      primEvents (r.FileExists path).2 = [] ∧
      primEvents (r.DirExists path).2 = []) ∧
    (r.Dryrun = false →
      ((r.run FileExistsCmd (FileExistsCmdOptions ++ [path])).1 = (out, errS, code) →
        ((code ≠ 0 → goContains errS "No such file or directory" = true →
            (r.FileExists path).1 = some (false, none)) ∧
         (code ≠ 0 → goContains errS "No such file or directory" = false →
            (r.FileExists path).1 =
              some (false, some ("could not access " ++ path ++ ": " ++ out))) ∧
         (code = 0 → ∀ fld, (goSplit out ':')[1]? = some fld →
            ((goTrimSpace fld ≠ "regular file" ∧ goTrimSpace fld ≠ "regular empty file" →
                (r.FileExists path).1 =
                  some (false, some (path ++ " is not a regular file"))) ∧
             (goTrimSpace fld = "regular file" ∨ goTrimSpace fld = "regular empty file" →
                (r.FileExists path).1 = some (true, none)))))) ∧
      ((r.run DirExistsCmd (DirExistsCmdOptions ++ [path])).1 = (out, errS, code) →
        ((code ≠ 0 → goContains errS "No such file or directory" = true →
            (r.DirExists path).1 = some (false, none)) ∧
         (code ≠ 0 → goContains errS "No such file or directory" = false →
            (r.DirExists path).1 =
              some (false, some ("could not access " ++ path ++ ": " ++ out))) ∧
         (code = 0 → ∀ fld, (goSplit out ':')[1]? = some fld →
            ((goTrimSpace fld ≠ "directory" →
                (r.DirExists path).1 =
                  some (false, some (path ++ " is not a directory"))) ∧
             (goTrimSpace fld = "directory" →
                (r.DirExists path).1 = some (true, none))))))) := by
  refine ⟨⟨?_, ?_⟩, fun hd => ?_, fun hd => ⟨fun h => ?_, fun h => ?_⟩⟩
  · cases hDry : r.Dryrun <;>
      simp [LogRun.FileExists, LogRun.run, LogRun.FormatRun, loggedMsgs, hDry]
  · cases hDry : r.Dryrun <;>
      simp [LogRun.DirExists, LogRun.run, LogRun.FormatRun, loggedMsgs, hDry]
  · simp [LogRun.FileExists, LogRun.DirExists, primEvents, hd]
  · refine ⟨fun hc hs => ?_, fun hc hs => ?_,
      fun hc fld hfld => ⟨fun ht => ?_, fun ht => ?_⟩⟩
    · simp [LogRun.FileExists, fileExistsResult, hd, h, hc, hs]
    · simp [LogRun.FileExists, fileExistsResult, hd, h, hc, hs]
    · subst hc
      simp [LogRun.FileExists, fileExistsResult, hd, h, hfld, ht.1, ht.2]
    · subst hc
      rcases ht with ht | ht <;>
        simp [LogRun.FileExists, fileExistsResult, hd, h, hfld, ht]
  · refine ⟨fun hc hs => ?_, fun hc hs => ?_,
      fun hc fld hfld => ⟨fun ht => ?_, fun ht => ?_⟩⟩
    · simp [LogRun.DirExists, dirExistsResult, hd, h, hc, hs]
    · simp [LogRun.DirExists, dirExistsResult, hd, h, hc, hs]
    · subst hc
      simp [LogRun.DirExists, dirExistsResult, hd, h, hfld, ht]
    · subst hc
      simp [LogRun.DirExists, dirExistsResult, hd, h, hfld, ht]

/-- Witness for claim C3: with a status command reporting a regular file,
FileExists accepts the path and DirExists rejects it with a parse-level
error. -/
theorem file_dir_exists_behaviour_witness :
    (statLogRun.FileExists "/bin/bash").1 = some (true, none) ∧
    (statLogRun.DirExists "/bin/bash").1 =
      some (false, some "/bin/bash is not a directory") := by
  have h := file_dir_exists_behaviour statLogRun "/bin/bash"
    "/bin/bash:regular file" "" 0
  obtain ⟨-, -, h3⟩ := h
  obtain ⟨hfile, hdir⟩ := h3 rfl
  constructor
  · exact ((hfile rfl).2.2 rfl "regular file" (by decide)).2 (Or.inl (by decide))
  · exact ((hdir rfl).2.2 rfl "regular file" (by decide)).1 (by decide)

/-- A primitive whose status command exits 0 with empty captured stdout, as
happens when the runner was built with a caller-supplied Stdout sink. -/
def emptyOutRunner : run.Runner :=
  { run := fun _ _ => { stdout := "", stderr := "", code := 0, err := none }
    shell := fun _ => { stdout := "", stderr := "", code := 0, err := none }
    formatRun := fun cmd args => String.intercalate " " (cmd :: args)
    formatShell := fun cmd => cmd }

/-- A LogRun over emptyOutRunner with dry-run disabled. -/
def emptyOutLogRun : LogRun :=
  { Runner := emptyOutRunner, logFunc := DefaultLogFunc, Dryrun := false }

/-- Claim C8: after a zero exit whose captured stdout contains no colon (in
particular the empty stdout produced with a caller-supplied Stdout sink),
FileExists and DirExists index a missing field and panic, modelled here as
the none result. -/
theorem stat_parse_panic (r : LogRun) (path out errS : String)
    (hd : r.Dryrun = false)
    (hfile : (r.run FileExistsCmd (FileExistsCmdOptions ++ [path])).1 = (out, errS, 0))
    (hdir : (r.run DirExistsCmd (DirExistsCmdOptions ++ [path])).1 = (out, errS, 0))
    (hcolon : (goSplit out ':')[1]? = none) :
    (r.FileExists path).1 = none ∧ (r.DirExists path).1 = none := by
  constructor
  · simp [LogRun.FileExists, fileExistsResult, hd, hfile, hcolon]
  · simp [LogRun.DirExists, dirExistsResult, hd, hdir, hcolon]

/-- Witness for claim C8: a zero exit with empty captured stdout makes both
existence checks panic. -/
theorem stat_parse_panic_witness :
    emptyOutLogRun.Dryrun = false ∧
    (goSplit "" ':')[1]? = none ∧
    (emptyOutLogRun.FileExists "/bin/bash").1 = none ∧
    (emptyOutLogRun.DirExists "/bin/bash").1 = none :=
  ⟨rfl, rfl,
   stat_parse_panic emptyOutLogRun "/bin/bash" "" "" rfl rfl rfl rfl⟩

/-- Claim C7: NewRemoteLogRun returns a non-nil error exactly when the
external remote-primitive constructor fails, returning a nil runner in that
case; on success, and always for NewLocalLogRun (which is total), the
constructed LogRun carries the built primitive, the configured dry-run
flag, and the configured logging function, with the no-op default
substituted when the configured one is nil. -/
theorem constructor_error_paths
    (newRemote : run.RemoteConfig → Except String run.Runner)
    (newLocal : run.LocalConfig → run.Runner)
    (config : RemoteConfig) (lconfig : LocalConfig) :
    (∀ e, newRemote (remoteRunConfig config) = Except.error e →
      NewRemoteLogRun newRemote config = (none, some e)) ∧
    (∀ rem, newRemote (remoteRunConfig config) = Except.ok rem →
      ∃ lr, NewRemoteLogRun newRemote config = (some lr, none) ∧
        lr.Runner = rem ∧ lr.Dryrun = config.Dryrun ∧
        (config.LogFunc = none → lr.logFunc = DefaultLogFunc) ∧
        (∀ f, config.LogFunc = some f → lr.logFunc = f)) ∧
    ((NewLocalLogRun newLocal lconfig).Runner = newLocal (localRunConfig lconfig) ∧
     (NewLocalLogRun newLocal lconfig).Dryrun = lconfig.Dryrun ∧
     (lconfig.LogFunc = none →
        (NewLocalLogRun newLocal lconfig).logFunc = DefaultLogFunc) ∧
     (∀ f, lconfig.LogFunc = some f →
        (NewLocalLogRun newLocal lconfig).logFunc = f)) := by
  refine ⟨fun e he => ?_, fun rem hrem => ?_,
    rfl, rfl, fun hn => ?_, fun f hf => ?_⟩
  · simp [NewRemoteLogRun, he]
  · refine ⟨{ Runner := rem
              logFunc :=
                match config.LogFunc with
                | none => DefaultLogFunc
                | some f => f
              Dryrun := config.Dryrun },
      by simp [NewRemoteLogRun, hrem], rfl, rfl, fun hn => ?_, fun f hf => ?_⟩
    · simp [hn]
    · simp [hf]
  · simp [NewLocalLogRun, hn]
  · simp [NewLocalLogRun, hf]

/-- A remote-primitive constructor that fails with an authentication
error. -/
def remoteFail : run.RemoteConfig → Except String run.Runner :=
  fun _ => Except.error "ssh: unable to authenticate"

/-- A remote-primitive constructor that succeeds. -/
def remoteOk : run.RemoteConfig → Except String run.Runner :=
  fun _ => Except.ok okRunner

/-- A local-primitive constructor. -/
def localOk : run.LocalConfig → run.Runner :=
  fun _ => okRunner

/-- Sample credentials. -/
def sampleCreds : Credentials :=
  { Hostname := "host", Port := 22, Username := "user", Password := "pw"
    PrivateKeyFilename := "" }

/-- A sample remote configuration with a nil logging function. -/
def sampleRemoteConfig : RemoteConfig :=
  { LogFunc := none, ShellExecutable := "", Env := [], Dir := ""
    Stdin := none, Stdout := none, Stderr := none
    Credentials := sampleCreds, Dryrun := false }

/-- A sample local configuration with a nil logging function. -/
def sampleLocalConfig : LocalConfig :=
  { LogFunc := none, ShellExecutable := "", Env := [], Dir := ""
    Stdin := none, Stdout := none, Stderr := none, Dryrun := false }

/-- Witness for claim C7: a failing transport gives a nil runner and the
error, and a nil LogFunc is replaced by the no-op default locally. -/
theorem constructor_error_paths_witness :
    NewRemoteLogRun remoteFail sampleRemoteConfig =
      (none, some "ssh: unable to authenticate") ∧
    (NewLocalLogRun localOk sampleLocalConfig).logFunc = DefaultLogFunc :=
  ⟨(constructor_error_paths remoteFail localOk sampleRemoteConfig
      sampleLocalConfig).1 "ssh: unable to authenticate" rfl,
   (constructor_error_paths remoteFail localOk sampleRemoteConfig
      sampleLocalConfig).2.2.2.2.1 rfl⟩

/-- Claim C9: the Env and Dir fields of RemoteConfig are never forwarded to
the remote execution primitive: two remote configurations that agree on
every other field produce identical constructor results. -/
theorem remote_env_dir_ignored
    (newRemote : run.RemoteConfig → Except String run.Runner)
    (c1 c2 : RemoteConfig)
    (hlf : c1.LogFunc = c2.LogFunc)
    (hsh : c1.ShellExecutable = c2.ShellExecutable)
    (hin : c1.Stdin = c2.Stdin) (hout : c1.Stdout = c2.Stdout)
    (herr : c1.Stderr = c2.Stderr)
    (hcred : c1.Credentials = c2.Credentials)
    (hdry : c1.Dryrun = c2.Dryrun) :
    NewRemoteLogRun newRemote c1 = NewRemoteLogRun newRemote c2 := by
  cases c1
  cases c2
  dsimp only at hlf hsh hin hout herr hcred hdry
  subst hlf
  subst hsh
  subst hin
  subst hout
  subst herr
  subst hcred
  subst hdry
  rfl

/-- A remote configuration with one environment and working directory. -/
def sampleRemoteConfigEnvA : RemoteConfig :=
  { LogFunc := none, ShellExecutable := "", Env := ["FIRST=1st"], Dir := "/tmp"
    Stdin := none, Stdout := none, Stderr := none
    Credentials := sampleCreds, Dryrun := false }

/-- The same remote configuration with different Env and Dir fields. -/
def sampleRemoteConfigEnvB : RemoteConfig :=
  { LogFunc := none, ShellExecutable := "", Env := ["SECOND=2nd"], Dir := "/"
    Stdin := none, Stdout := none, Stderr := none
    Credentials := sampleCreds, Dryrun := false }

/-- Witness for claim C9: two configurations that differ in Env and Dir
yield the same constructor result. -/
theorem remote_env_dir_ignored_witness :
    sampleRemoteConfigEnvA.Env ≠ sampleRemoteConfigEnvB.Env ∧
    sampleRemoteConfigEnvA.Dir ≠ sampleRemoteConfigEnvB.Dir ∧
    NewRemoteLogRun remoteOk sampleRemoteConfigEnvA =
      NewRemoteLogRun remoteOk sampleRemoteConfigEnvB :=
  ⟨by decide, by decide,
   remote_env_dir_ignored remoteOk sampleRemoteConfigEnvA sampleRemoteConfigEnvB
     rfl rfl rfl rfl rfl rfl rfl⟩
